import Mathlib

/-!
Verification of the typethon chat backend: a shallow embedding of the
chat data model (`models/chat_model.py`), the repository operations
(`operations/chat_repository.py`), the chat service
(`services/chat_service.py`) and the streaming orchestrator
(`services/ai_service.py`), with theorems settling the spec's claims
about them.

Conventions of the embedding:
- chat/message identifiers and timestamps are `Nat` (the source uses
  UUIDs and datetimes; only identity and order matter to the claims);
- the SQL database is a `Store` record; each query is translated from
  the SQLAlchemy expression that the repository builds (filter =
  `List.filter`, ORDER BY = a stable sort on the key, OFFSET/LIMIT =
  `drop`/`take`);
- the provider's token stream is a list of chunks plus a flag saying
  whether the stream raises after the listed chunks were yielded;
- effects and emissions of the async generator are recorded in an
  explicit event trace, so ordering claims ("written strictly before
  the provider is invoked") are positions in that trace.
-/

/-- One row of the `messages` table (`models/chat_model.py`, class
`Message`).  `is_from_ai` is an `Integer` column in the source (booleans
arrive as 0/1); `created_at` is a server-side timestamp. -/
structure Message where
  id : Nat
  chat_id : Nat
  content : String
  is_from_ai : Nat
  created_at : Nat
deriving Repr, DecidableEq

/-- One row of the `chats` table (`models/chat_model.py`, class `Chat`).
`title` is nullable; `updated_at` has `onupdate=func.now()`, which fires
only when an UPDATE statement is actually issued for the row. -/
structure Chat where
  id : Nat
  title : Option String
  created_at : Nat
  updated_at : Nat
deriving Repr, DecidableEq

/-- The database state seen by one `ChatRepository` session: the two
tables in insertion order, plus a clock supplying fresh ids and
`func.now()` timestamps (strictly increasing). -/
structure Store where
  chats : List Chat
  messages : List Message
  clock : Nat
deriving Repr, DecidableEq

/-- Stable insert of a message into a list sorted by ascending
`created_at`: the new element goes before the first strictly-later
element, after any equal timestamps already present. -/
def insertByCreatedAt (m : Message) : List Message → List Message
  | [] => [m]
  | x :: xs =>
    if m.created_at ≤ x.created_at then m :: x :: xs
    else x :: insertByCreatedAt m xs

/-- Stable sort by ascending `created_at`: the meaning of
`ORDER BY messages.created_at` over a result set. -/
def sortByCreatedAt : List Message → List Message
  | [] => []
  | x :: xs => insertByCreatedAt x (sortByCreatedAt xs)

/-- Stable insert into a list sorted by descending `updated_at`. -/
def insertByUpdatedDesc (c : Chat) : List Chat → List Chat
  | [] => [c]
  | x :: xs =>
    if x.updated_at ≤ c.updated_at then c :: x :: xs
    else x :: insertByUpdatedDesc c xs

/-- Stable sort by descending `updated_at`: the meaning of
`ORDER BY desc(chats.updated_at)`. -/
def sortByUpdatedDesc : List Chat → List Chat
  | [] => []
  | x :: xs => insertByUpdatedDesc x (sortByUpdatedDesc xs)

namespace ChatRepository

/-- `ChatRepository.get_chat`: `query(Chat).filter(Chat.id == chat_id).first()`. -/
def get_chat (s : Store) (chat_id : Nat) : Option Chat :=
  (s.chats.filter (fun c => c.id == chat_id)).head?

/-- `ChatRepository.get_chats`: `query(Chat).order_by(desc(Chat.updated_at)).offset(skip).limit(limit).all()` (defaults `skip=0, limit=20`). -/
def get_chats (s : Store) (skip : Nat := 0) (limit : Nat := 20) : List Chat :=
  (((sortByUpdatedDesc s.chats).drop skip).take limit)

/-- `ChatRepository.get_messages_by_chat`: `query(Message).filter(Message.chat_id == chat_id).order_by(Message.created_at).offset(skip).limit(limit).all()` (defaults `skip=0, limit=50`). -/
def get_messages_by_chat (s : Store) (chat_id : Nat)
    (skip : Nat := 0) (limit : Nat := 50) : List Message :=
  (((sortByCreatedAt (s.messages.filter (fun m => m.chat_id == chat_id))).drop skip).take limit)

/-- `ChatRepository.create_message`: inserts the new `Message` row, then
re-reads the owning chat and calls `db.merge(chat)` before committing.
The merged instance is the very object the session just loaded and no
attribute of it was changed, so the merge marks nothing dirty and the
flush issues no UPDATE on `chats`; the column-level `onupdate` therefore
never fires and the chat rows are left exactly as they were (the inline
comment in the source claims otherwise).  The INSERT gets a fresh id and
`func.now()` timestamp from the clock. -/
def create_message (s : Store) (chat_id : Nat) (content : String)
    (is_from_ai : Nat) : Store :=
  { s with
    messages := s.messages ++ [{ id := s.clock, chat_id := chat_id,
                                 content := content, is_from_ai := is_from_ai,
                                 created_at := s.clock }],
    clock := s.clock + 1 }

/-- `ChatRepository.delete_message`: looks the message up by id and, when
present, deletes that row and commits; no chat row is touched. -/
def delete_message (s : Store) (message_id : Nat) : Store :=
  { s with messages := s.messages.filter (fun m => ¬ m.id == message_id) }

end ChatRepository

/-- All messages of one chat, in insertion order (the raw table rows the
queries range over). -/
def chatMessages (s : Store) (chat_id : Nat) : List Message :=
  s.messages.filter (fun m => m.chat_id == chat_id)

/-- Observable part of a message for the history claims: content and the
origin flag. -/
def msgProj (m : Message) : String × Nat := (m.content, m.is_from_ai)

/-- Store well-formedness: rows were inserted at strictly increasing
timestamps and the clock is ahead of all of them (what the repository's
sessions maintain). -/
def StoreWf (s : Store) : Prop :=
  s.messages.Pairwise (fun a b => a.created_at < b.created_at) ∧
  ∀ m ∈ s.messages, m.created_at < s.clock

/-- One entry of the role-tagged in-memory history handed to the
provider (the dicts `{"role": ..., "content": ...}` built in
`ai_service.py`), also the shape of the client messages that
`process_chat_stream` receives. -/
structure HistTurn where
  role : String
  content : String
deriving Repr, DecidableEq

/-- One `choices` entry of a provider stream chunk; `delta_content` is
`choice.delta.content`, which the OpenAI client delivers as an optional
string. -/
structure Choice where
  delta_content : Option String
deriving Repr, DecidableEq

/-- One chunk of the provider's token stream (`async for chunk in stream`). -/
structure Chunk where
  choices : List Choice
deriving Repr, DecidableEq

/-- The guard `if chunk.choices and chunk.choices[0].delta.content:` of
both framing loops: the chunk contributes its first choice's delta
content exactly when the choices list is non-empty and that content is
neither absent nor the empty string (Python truthiness). -/
def chunkContent (c : Chunk) : Option String :=
  match c.choices.head? with
  | none => none
  | some ch =>
    match ch.delta_content with
    | none => none
    | some t => if t == "" then none else some t

/-- Lower-case hex digit, as `"%04x"` formatting uses. -/
def hexDigit (n : Nat) : Char :=
  if n < 10 then Char.ofNat (48 + n) else Char.ofNat (87 + n)

/-- Four-digit lower-case hex rendering of `n < 0x10000`. -/
def hex4 (n : Nat) : String :=
  String.mk [hexDigit (n / 4096 % 16), hexDigit (n / 256 % 16),
             hexDigit (n / 16 % 16), hexDigit (n % 16)]

/-- Escape of one character under CPython's
`json.encoder.py_encode_basestring_ascii` (the behaviour of
`json.dumps` on strings with default `ensure_ascii=True`): the short
escapes for backslash, quote and the five control abbreviations, plain
passthrough for the other printable ASCII characters, `\uXXXX` for every
remaining BMP character and a surrogate pair for the rest. -/
def escapeChar (c : Char) : String :=
  if c = '\\' then "\\\\"
  else if c = '"' then "\\\""
  else if c = Char.ofNat 8 then "\\b"
  else if c = Char.ofNat 12 then "\\f"
  else if c = '\n' then "\\n"
  else if c = Char.ofNat 13 then "\\r"
  else if c = '\t' then "\\t"
  else if 32 ≤ c.toNat ∧ c.toNat ≤ 126 then String.singleton c
  else if c.toNat < 65536 then "\\u" ++ hex4 c.toNat
  else
    "\\u" ++ hex4 (55296 + (c.toNat - 65536) / 1024) ++
    "\\u" ++ hex4 (56320 + (c.toNat - 65536) % 1024)

/-- `json.dumps` on a string value: the escaped characters wrapped in
double quotes. -/
def jsonDumps (s : String) : String :=
  "\"" ++ String.join (s.data.map escapeChar) ++ "\""

/-- The terminal `"d:"` line of the `"data"` framing, with the brace
characters of the literal JSON object written as hex escapes:
`d:{"finishReason":"stop","usage":{"promptTokens":0,"completionTokens":N}}\n`. -/
def finishLine (completionTokens : Nat) : String :=
  "d:\x7b\"finishReason\":\"stop\",\"usage\":\x7b\"promptTokens\":0,\"completionTokens\":" ++
    toString completionTokens ++ "\x7d\x7d\n"

/-- Observable events of one `stream_ai_response` /
`process_chat_stream` invocation, in execution order: the history read,
the two message writes, the provider invocation, each yielded output
chunk, and the provider stream raising mid-iteration. -/
inductive Ev where
  | readHistory (history : List HistTurn)
  | writeUser (content : String)
  | providerCall (messages : List HistTurn)
  | emitChunk (chunk : String)
  | writeAI (content : String)
  | streamError
deriving Repr, DecidableEq

/-- The output chunks a consumer of the generator sees, read off the
event trace. -/
def outputsOf (trace : List Ev) : List String :=
  trace.filterMap (fun e =>
    match e with
    | Ev.emitChunk c => some c
    | _ => none)

namespace AIService

/-- `AIService.get_chat_history`: reads the chat's messages through
`get_messages_by_chat` (with its default `skip=0, limit=50`) and maps
each row to a role-tagged dict — `is_from_ai == 1` becomes
`"assistant"`, anything else `"user"` (every `Message` row has the
`is_from_ai` attribute, so the `hasattr` guard in the source always
takes its first branch). -/
def get_chat_history (s : Store) (chat_id : Nat) : List HistTurn :=
  (ChatRepository.get_messages_by_chat s chat_id).map (fun msg =>
    { role := if msg.is_from_ai == 1 then "assistant" else "user",
      content := msg.content })

/-- The `protocol == "text"` loop of `stream_ai_response`: for each
chunk passing the guard, append the content to the accumulator and yield
it raw.  Returns the emitted events and the final accumulator. -/
def textLoop : List Chunk → String → List Ev × String
  | [], acc => ([], acc)
  | c :: cs, acc =>
    match chunkContent c with
    | none => textLoop cs acc
    | some content =>
      let rest := textLoop cs (acc ++ content)
      (Ev.emitChunk content :: rest.1, rest.2)

/-- The `protocol == "data"` loop of `stream_ai_response`: for each
chunk passing the guard, append the content to the accumulator and yield
the line `"0:" + json.dumps(content) + "\n"`. -/
def dataLoop : List Chunk → String → List Ev × String
  | [], acc => ([], acc)
  | c :: cs, acc =>
    match chunkContent c with
    | none => dataLoop cs acc
    | some content =>
      let rest := dataLoop cs (acc ++ content)
      (Ev.emitChunk ("0:" ++ jsonDumps content ++ "\n") :: rest.1, rest.2)

/-- `AIService.stream_ai_response`, run to exhaustion by its consumer.
`chunks` are the chunks the provider stream yields; `streamFails` says
the stream raises after yielding them (a mid-stream `ProviderFailure`),
which the generator observes only where it actually iterates the stream
— i.e. inside the `"text"`/`"data"` loops, never on an unrecognised
protocol, whose branch skips iteration entirely.  The function returns
the event trace and the final store: history read, user message write
(`is_from_ai=False`), provider call with the full in-memory history,
the framing loop, then — only when the loop ended cleanly — the final
AI message write (`is_from_ai=True`) with the accumulated text. -/
def stream_ai_response (s : Store) (message_content : String) (chat_id : Nat)
    (protocol : String) (chunks : List Chunk) (streamFails : Bool) :
    List Ev × Store :=
  let chat_history := get_chat_history s chat_id
  let full_history := chat_history ++ [{ role := "user", content := message_content }]
  let s1 := ChatRepository.create_message s chat_id message_content 0
  let pre := [Ev.readHistory chat_history, Ev.writeUser message_content,
              Ev.providerCall full_history]
  if protocol == "text" then
    let loop := textLoop chunks ""
    if streamFails then (pre ++ loop.1 ++ [Ev.streamError], s1)
    else (pre ++ loop.1 ++ [Ev.writeAI loop.2],
          ChatRepository.create_message s1 chat_id loop.2 1)
  else if protocol == "data" then
    let loop := dataLoop chunks ""
    if streamFails then (pre ++ loop.1 ++ [Ev.streamError], s1)
    else
      (pre ++ loop.1 ++ [Ev.emitChunk (finishLine loop.2.length), Ev.writeAI loop.2],
       ChatRepository.create_message s1 chat_id loop.2 1)
  else
    (pre ++ [Ev.writeAI ""], ChatRepository.create_message s1 chat_id "" 1)

/-- `AIService.process_chat_stream`: when the client message list is
non-empty and its last entry's role is `"user"`, delegate to
`stream_ai_response` on that entry's content; otherwise yield the single
literal chunk `"No valid user messages found"` and touch nothing. -/
def process_chat_stream (s : Store) (client_messages : List HistTurn)
    (chat_id : Nat) (protocol : String) (chunks : List Chunk)
    (streamFails : Bool) : List Ev × Store :=
  match client_messages.getLast? with
  | some last =>
    if last.role == "user" then
      stream_ai_response s last.content chat_id protocol chunks streamFails
    else ([Ev.emitChunk "No valid user messages found"], s)
  | none => ([Ev.emitChunk "No valid user messages found"], s)

end AIService

/-- The chat summary dict that `ChatService.get_chats` builds per chat. -/
structure ChatSummary where
  id : Nat
  title : String
  created_at : Nat
  updated_at : Nat
deriving Repr, DecidableEq

namespace ChatService

/-- `ChatService.get_chats`: reads `ChatRepository.get_chats(skip, limit)`
and renders each chat, substituting the title `"Chat " + id` when the
stored title is None. -/
def get_chats (s : Store) (skip : Nat := 0) (limit : Nat := 20) :
    List ChatSummary :=
  (ChatRepository.get_chats s skip limit).map (fun chat =>
    { id := chat.id,
      title := match chat.title with
               | some t => t
               | none => "Chat " ++ toString chat.id,
      created_at := chat.created_at,
      updated_at := chat.updated_at })

end ChatService

/-- Concatenation of a list of strings in order (the spec's "R is the
concatenation of all emitted deltas"). -/
def concatAll : List String → String
  | [] => ""
  | s :: l => s ++ concatAll l

/-- The provider deltas the generator emits under a given framing: the
non-empty first-choice contents, in arrival order, under the two
recognised framings; nothing under any other discriminator (whose branch
never iterates the stream). -/
def emittedDeltas (protocol : String) (chunks : List Chunk) : List String :=
  if protocol == "text" || protocol == "data" then chunks.filterMap chunkContent
  else []

/-- A store with one chat (id 0) holding fifty-one messages, used to
exercise the repository read limit. -/
def bigStore : Store :=
  { chats := [{ id := 0, title := none, created_at := 0, updated_at := 0 }],
    messages := (List.range 51).map (fun i =>
      { id := i, chat_id := 0, content := "m", is_from_ai := 0, created_at := i }),
    clock := 51 }

/-- The testable-properties scenario store: chat `C` (id 0) whose
history is the single user message `"hi"`. -/
def scenarioStore : Store :=
  { chats := [{ id := 0, title := none, created_at := 0, updated_at := 0 }],
    messages := [{ id := 0, chat_id := 0, content := "hi", is_from_ai := 0,
                   created_at := 0 }],
    clock := 1 }

/-- Provider chunks yielding the two scenario deltas (an apostrophe is
written with a hex escape). -/
def scenarioChunks : List Chunk :=
  [{ choices := [{ delta_content := some "I\x27m " }] },
   { choices := [{ delta_content := some "fine." }] }]

theorem textLoop_eq (cs : List Chunk) (acc : String) :
    AIService.textLoop cs acc =
      ((cs.filterMap chunkContent).map Ev.emitChunk,
       acc ++ concatAll (cs.filterMap chunkContent)) := by
  induction cs generalizing acc with
  | nil => simp [AIService.textLoop, concatAll]
  | cons c cs ih =>
    cases h : chunkContent c with
    | none => simp [AIService.textLoop, h, ih, List.filterMap_cons]
    | some content =>
      simp [AIService.textLoop, h, ih, List.filterMap_cons, concatAll,
            String.append_assoc]

theorem dataLoop_eq (cs : List Chunk) (acc : String) :
    AIService.dataLoop cs acc =
      ((cs.filterMap chunkContent).map
         (fun d => Ev.emitChunk ("0:" ++ jsonDumps d ++ "\n")),
       acc ++ concatAll (cs.filterMap chunkContent)) := by
  induction cs generalizing acc with
  | nil => simp [AIService.dataLoop, concatAll]
  | cons c cs ih =>
    cases h : chunkContent c with
    | none => simp [AIService.dataLoop, h, ih, List.filterMap_cons]
    | some content =>
      simp [AIService.dataLoop, h, ih, List.filterMap_cons, concatAll,
            String.append_assoc]

theorem insertByCreatedAt_of_forall_le (m : Message) (l : List Message)
    (h : ∀ x ∈ l, m.created_at ≤ x.created_at) :
    insertByCreatedAt m l = m :: l := by
  cases l with
  | nil => rfl
  | cons x xs => simp [insertByCreatedAt, h x (List.mem_cons_self x xs)]

theorem sortByCreatedAt_eq_self (l : List Message)
    (h : l.Pairwise (fun a b => a.created_at ≤ b.created_at)) :
    sortByCreatedAt l = l := by
  induction l with
  | nil => rfl
  | cons x xs ih =>
    obtain ⟨hx, hxs⟩ := List.pairwise_cons.mp h
    rw [sortByCreatedAt, ih hxs, insertByCreatedAt_of_forall_le x xs hx]

theorem insertByUpdatedDesc_perm (c : Chat) (l : List Chat) :
    (insertByUpdatedDesc c l).Perm (c :: l) := by
  induction l with
  | nil => simp [insertByUpdatedDesc]
  | cons x xs ih =>
    by_cases h : x.updated_at ≤ c.updated_at
    · rw [insertByUpdatedDesc, if_pos h]
    · rw [insertByUpdatedDesc, if_neg h]
      exact (ih.cons x).trans (List.Perm.swap c x xs)

theorem sortByUpdatedDesc_perm (l : List Chat) :
    (sortByUpdatedDesc l).Perm l := by
  induction l with
  | nil => simp [sortByUpdatedDesc]
  | cons x xs ih =>
    exact (insertByUpdatedDesc_perm x (sortByUpdatedDesc xs)).trans (ih.cons x)

theorem insertByUpdatedDesc_sorted (c : Chat) (l : List Chat)
    (h : l.Pairwise (fun a b => b.updated_at ≤ a.updated_at)) :
    (insertByUpdatedDesc c l).Pairwise (fun a b => b.updated_at ≤ a.updated_at) := by
  induction l with
  | nil => simp [insertByUpdatedDesc]
  | cons x xs ih =>
    obtain ⟨hx, hxs⟩ := List.pairwise_cons.mp h
    by_cases hle : x.updated_at ≤ c.updated_at
    · rw [insertByUpdatedDesc, if_pos hle]
      refine List.pairwise_cons.mpr ⟨?_, h⟩
      intro y hy
      rcases List.mem_cons.mp hy with rfl | hy
      · exact hle
      · exact le_trans (hx y hy) hle
    · rw [insertByUpdatedDesc, if_neg hle]
      refine List.pairwise_cons.mpr ⟨?_, ih hxs⟩
      intro y hy
      rcases List.mem_cons.mp ((insertByUpdatedDesc_perm c xs).mem_iff.mp hy) with rfl | hy
      · exact le_of_not_le hle
      · exact hx y hy

theorem sortByUpdatedDesc_sorted (l : List Chat) :
    (sortByUpdatedDesc l).Pairwise (fun a b => b.updated_at ≤ a.updated_at) := by
  induction l with
  | nil => simp [sortByUpdatedDesc]
  | cons x xs ih => exact insertByUpdatedDesc_sorted x (sortByUpdatedDesc xs) ih

theorem chatMessages_create_message_self (s : Store) (cid : Nat) (t : String)
    (f : Nat) :
    chatMessages (ChatRepository.create_message s cid t f) cid =
      chatMessages s cid ++
        [{ id := s.clock, chat_id := cid, content := t, is_from_ai := f,
           created_at := s.clock }] := by
  simp [chatMessages, ChatRepository.create_message, List.filter_append]

theorem storeWf_create_message (s : Store) (cid : Nat) (t : String) (f : Nat)
    (hwf : StoreWf s) : StoreWf (ChatRepository.create_message s cid t f) := by
  obtain ⟨hp, hc⟩ := hwf
  constructor
  · simp only [ChatRepository.create_message]
    refine List.pairwise_append.mpr ⟨hp, List.pairwise_singleton _ _, ?_⟩
    intro a ha b hb
    simp only [List.mem_singleton] at hb
    subst hb
    exact hc a ha
  · intro m hm
    simp only [ChatRepository.create_message, List.mem_append,
               List.mem_singleton] at hm
    rcases hm with hm | rfl
    · exact Nat.lt_succ_of_lt (hc m hm)
    · exact Nat.lt_succ_self _

theorem chatMessages_sorted (s : Store) (cid : Nat) (hwf : StoreWf s) :
    (chatMessages s cid).Pairwise (fun a b => a.created_at ≤ b.created_at) :=
  (hwf.1.filter _).imp (fun h => le_of_lt h)

theorem get_messages_by_chat_eq_take (s : Store) (cid : Nat) (hwf : StoreWf s) :
    ChatRepository.get_messages_by_chat s cid = (chatMessages s cid).take 50 := by
  show (((sortByCreatedAt (chatMessages s cid)).drop 0).take 50) = _
  rw [sortByCreatedAt_eq_self _ (chatMessages_sorted s cid hwf), List.drop_zero]

theorem chunkContent_eq_none_of_blank (c : Chunk)
    (h : c.choices = [] ∨ ∃ ch rest, c.choices = ch :: rest ∧
         (ch.delta_content = none ∨ ch.delta_content = some "")) :
    chunkContent c = none := by
  rcases h with h | ⟨ch, rest, hc, h⟩
  · simp [chunkContent, h]
  · rcases h with h | h <;> simp [chunkContent, hc, h]

theorem outputsOf_nil : outputsOf [] = [] := rfl

theorem outputsOf_append (a b : List Ev) :
    outputsOf (a ++ b) = outputsOf a ++ outputsOf b := by
  simp [outputsOf, List.filterMap_append]

theorem outputsOf_cons_emit (c : String) (t : List Ev) :
    outputsOf (Ev.emitChunk c :: t) = c :: outputsOf t := rfl

theorem outputsOf_cons_readHistory (h : List HistTurn) (t : List Ev) :
    outputsOf (Ev.readHistory h :: t) = outputsOf t := rfl

theorem outputsOf_cons_writeUser (c : String) (t : List Ev) :
    outputsOf (Ev.writeUser c :: t) = outputsOf t := rfl

theorem outputsOf_cons_providerCall (m : List HistTurn) (t : List Ev) :
    outputsOf (Ev.providerCall m :: t) = outputsOf t := rfl

theorem outputsOf_cons_writeAI (c : String) (t : List Ev) :
    outputsOf (Ev.writeAI c :: t) = outputsOf t := rfl

theorem outputsOf_cons_streamError (t : List Ev) :
    outputsOf (Ev.streamError :: t) = outputsOf t := rfl

theorem outputsOf_map_emit (f : String → String) (l : List String) :
    outputsOf (l.map fun d => Ev.emitChunk (f d)) = l.map f := by
  induction l with
  | nil => rfl
  | cons a l ih =>
    simp only [List.map_cons, outputsOf_cons_emit, ih]

theorem outputsOf_map_emitChunk (l : List String) :
    outputsOf (l.map Ev.emitChunk) = l := by
  induction l with
  | nil => rfl
  | cons a l ih =>
    simp only [List.map_cons, outputsOf_cons_emit, ih]

/-- C2: under the `"data"` framing, a completed `stream_ai_response`
emits one line `"0:" + json.dumps(delta) + "\n"` per non-empty delta, in
arrival order, followed by exactly one terminal `"d:"` line whose
`finishReason` is `"stop"`, whose `promptTokens` is hard-coded 0 and
whose `completionTokens` is the character length of the accumulated text
R; R is the concatenation, in order, of exactly the deltas carried by
the `"0:"` lines. -/
theorem data_framing_wire_format (s : Store) (M : String) (chat_id : Nat)
    (chunks : List Chunk) :
    outputsOf (AIService.stream_ai_response s M chat_id "data" chunks false).1 =
      (chunks.filterMap chunkContent).map
        (fun d => "0:" ++ jsonDumps d ++ "\n") ++
      [finishLine (concatAll (chunks.filterMap chunkContent)).length] := by
  simp [AIService.stream_ai_response, dataLoop_eq, outputsOf_append,
        outputsOf_cons_readHistory, outputsOf_cons_writeUser,
        outputsOf_cons_providerCall, outputsOf_cons_emit,
        outputsOf_cons_writeAI, outputsOf_nil, outputsOf_map_emit,
        String.empty_append]

/-- C6: any framing discriminator other than `"text"` and `"data"` makes
`stream_ai_response` emit no output chunk at all and raise no error,
while still persisting the user message and then an AI message with
empty content. -/
theorem unknown_framing_emits_nothing (s : Store) (M : String)
    (chat_id : Nat) (protocol : String) (chunks : List Chunk) (fails : Bool)
    (h1 : protocol ≠ "text") (h2 : protocol ≠ "data") :
    outputsOf (AIService.stream_ai_response s M chat_id protocol chunks fails).1 = [] ∧
    Ev.streamError ∉ (AIService.stream_ai_response s M chat_id protocol chunks fails).1 ∧
    (chatMessages (AIService.stream_ai_response s M chat_id protocol chunks fails).2 chat_id).map msgProj =
      (chatMessages s chat_id).map msgProj ++ [(M, 0), ("", 1)] := by
  have e1 : (protocol == "text") = false := beq_eq_false_iff_ne.mpr h1
  have e2 : (protocol == "data") = false := beq_eq_false_iff_ne.mpr h2
  refine ⟨?_, ?_, ?_⟩
  · simp [AIService.stream_ai_response, e1, e2, outputsOf]
  · simp [AIService.stream_ai_response, e1, e2]
  · simp [AIService.stream_ai_response, e1, e2,
          chatMessages_create_message_self, msgProj]

theorem unknown_framing_emits_nothing_witness :
    outputsOf (AIService.stream_ai_response scenarioStore "how are you" 0 "json" scenarioChunks true).1 = [] ∧
    Ev.streamError ∉ (AIService.stream_ai_response scenarioStore "how are you" 0 "json" scenarioChunks true).1 ∧
    (chatMessages (AIService.stream_ai_response scenarioStore "how are you" 0 "json" scenarioChunks true).2 0).map msgProj =
      (chatMessages scenarioStore 0).map msgProj ++ [("how are you", 0), ("", 1)] :=
  unknown_framing_emits_nothing scenarioStore "how are you" 0 "json"
    scenarioChunks true (by decide) (by decide)

/-- C7 (the true behaviour at the claimed failing input, universally):
`ChatRepository.create_message` leaves the `chats` table — in particular
every chat's `updated_at` — completely unchanged, because the
`db.merge` of the just-loaded, unmodified chat instance issues no
UPDATE, so the column-level `onupdate` never fires; `delete_message`
likewise leaves the chats untouched.  This contradicts the claim (and
the source's own inline comment) that appending a message bumps the
owning chat's last-update timestamp. -/
theorem create_message_leaves_chats_unchanged (s : Store) (cid : Nat)
    (content : String) (f : Nat) (mid : Nat) :
    (ChatRepository.create_message s cid content f).chats = s.chats ∧
    (ChatRepository.delete_message s mid).chats = s.chats :=
  ⟨rfl, rfl⟩

/-- C8: a provider chunk whose `choices` list is empty, or whose first
choice's delta content is absent or the empty string, leaves the whole
run of `stream_ai_response` — emissions, accumulator, persisted
messages, terminal event — exactly as if the chunk had not been in the
stream, under every framing. -/
theorem blank_chunk_contributes_nothing (s : Store) (M : String)
    (chat_id : Nat) (protocol : String) (c : Chunk) (cs1 cs2 : List Chunk)
    (fails : Bool)
    (h : c.choices = [] ∨ ∃ ch rest, c.choices = ch :: rest ∧
         (ch.delta_content = none ∨ ch.delta_content = some "")) :
    AIService.stream_ai_response s M chat_id protocol (cs1 ++ c :: cs2) fails =
      AIService.stream_ai_response s M chat_id protocol (cs1 ++ cs2) fails := by
  have hn : chunkContent c = none := chunkContent_eq_none_of_blank c h
  have key : (cs1 ++ c :: cs2).filterMap chunkContent =
      (cs1 ++ cs2).filterMap chunkContent := by
    simp [List.filterMap_append, List.filterMap_cons, hn]
  simp only [AIService.stream_ai_response, textLoop_eq, dataLoop_eq, key]

theorem blank_chunk_contributes_nothing_witness :
    AIService.stream_ai_response scenarioStore "how are you" 0 "data"
        ([] ++ ({ choices := [] } : Chunk) :: scenarioChunks) false =
      AIService.stream_ai_response scenarioStore "how are you" 0 "data"
        ([] ++ scenarioChunks) false :=
  blank_chunk_contributes_nothing scenarioStore "how are you" 0 "data"
    { choices := [] } [] scenarioChunks false (Or.inl rfl)

/-- C9: when the client message list is empty or its last entry's role
is not `"user"`, `process_chat_stream` yields exactly the one literal
chunk `"No valid user messages found"`, leaves the store untouched and
performs no history read, no message write and no provider call (its
whole event trace is that single emission). -/
theorem no_valid_user_messages (s : Store) (client_messages : List HistTurn)
    (chat_id : Nat) (protocol : String) (chunks : List Chunk) (fails : Bool)
    (h : client_messages = [] ∨
         ∃ last, client_messages.getLast? = some last ∧ last.role ≠ "user") :
    AIService.process_chat_stream s client_messages chat_id protocol chunks fails =
      ([Ev.emitChunk "No valid user messages found"], s) := by
  rcases h with rfl | ⟨last, hl, hr⟩
  · rfl
  · simp [AIService.process_chat_stream, hl, beq_eq_false_iff_ne.mpr hr]

theorem no_valid_user_messages_witness :
    AIService.process_chat_stream scenarioStore
        [{ role := "assistant", content := "hi" }] 0 "data" scenarioChunks false =
      ([Ev.emitChunk "No valid user messages found"], scenarioStore) :=
  no_valid_user_messages scenarioStore [{ role := "assistant", content := "hi" }]
    0 "data" scenarioChunks false (Or.inr ⟨_, rfl, by decide⟩)

/-- C10: the chat-list operation returns at most `limit` summaries,
which are the slice skipping the first `skip` of the full list ordered
by last-update timestamp descending, and every summary renders a stored
chat, with the derived title `"Chat " + id` exactly when the stored
title is unset. -/
theorem chat_list_pagination (s : Store) (skip limit : Nat) :
    (ChatService.get_chats s skip limit).length ≤ limit ∧
    (ChatService.get_chats s skip limit).Pairwise
      (fun a b => b.updated_at ≤ a.updated_at) ∧
    ChatService.get_chats s skip limit =
      (ChatService.get_chats s 0 (skip + limit)).drop skip ∧
    ∀ x ∈ ChatService.get_chats s skip limit, ∃ c ∈ s.chats,
      x.id = c.id ∧ x.created_at = c.created_at ∧
      x.updated_at = c.updated_at ∧
      x.title = (match c.title with
                 | some t => t
                 | none => "Chat " ++ toString c.id) := by
  refine ⟨?_, ?_, ?_, ?_⟩
  · simp only [ChatService.get_chats, ChatRepository.get_chats,
               List.length_map, List.length_take]
    omega
  · have hs : (((sortByUpdatedDesc s.chats).drop skip).take limit).Pairwise
        (fun a b : Chat => b.updated_at ≤ a.updated_at) :=
      (sortByUpdatedDesc_sorted s.chats).sublist
        ((List.take_sublist _ _).trans (List.drop_sublist _ _))
    exact List.pairwise_map.mpr hs
  · simp only [ChatService.get_chats, ChatRepository.get_chats,
               List.drop_zero]
    rw [← List.map_drop, List.drop_take, Nat.add_sub_cancel_left]
  · intro x hx
    simp only [ChatService.get_chats] at hx
    rcases List.mem_map.mp hx with ⟨c, hc, rfl⟩
    refine ⟨c, ?_, rfl, rfl, rfl, rfl⟩
    have hmem : c ∈ sortByUpdatedDesc s.chats :=
      ((List.take_sublist _ _).trans (List.drop_sublist _ _)).subset hc
    exact (sortByUpdatedDesc_perm s.chats).mem_iff.mp hmem

/-- C3 counterexample: a chat holding fifty-one messages; the history
the orchestrator reads has only fifty entries, so it is not the full
prior history of the chat. -/
theorem history_read_truncated_counterexample :
    (AIService.get_chat_history bigStore 0).length = 50 ∧
    (chatMessages bigStore 0).length = 51 := by
  constructor <;> rfl

/-- C3 (amended): before any write, `stream_ai_response` reads the prior
history truncated to the oldest fifty messages (the repository read runs
with its default limit of 50), oldest-first by creation timestamp, and
maps `is_from_ai == 1` to `"assistant"` and every other stored value to
`"user"`; the history read is the very first event of the trace, before
the user-message write and the provider call. -/
theorem history_read_first_fifty (s : Store) (cid : Nat) (M : String)
    (protocol : String) (chunks : List Chunk) (fails : Bool)
    (hwf : StoreWf s) :
    AIService.get_chat_history s cid =
      ((chatMessages s cid).take 50).map (fun m =>
        { role := if m.is_from_ai == 1 then "assistant" else "user",
          content := m.content }) ∧
    (AIService.stream_ai_response s M cid protocol chunks fails).1.head? =
      some (Ev.readHistory (AIService.get_chat_history s cid)) := by
  constructor
  · rw [AIService.get_chat_history, get_messages_by_chat_eq_take s cid hwf]
  · cases h1 : (protocol == "text") with
    | true => cases fails <;> simp [AIService.stream_ai_response, h1]
    | false =>
      cases h2 : (protocol == "data") with
      | true => cases fails <;> simp [AIService.stream_ai_response, h1, h2]
      | false => simp [AIService.stream_ai_response, h1, h2]

theorem history_read_first_fifty_witness :
    AIService.get_chat_history scenarioStore 0 =
      ((chatMessages scenarioStore 0).take 50).map (fun m =>
        { role := if m.is_from_ai == 1 then "assistant" else "user",
          content := m.content }) ∧
    (AIService.stream_ai_response scenarioStore "how are you" 0 "data" scenarioChunks false).1.head? =
      some (Ev.readHistory (AIService.get_chat_history scenarioStore 0)) :=
  history_read_first_fifty scenarioStore 0 "how are you" "data"
    scenarioChunks false ⟨by decide, by decide⟩

/-- C4 counterexample: in the scenario (history one user message `hi`,
new user turn `how are you`, data framing, provider deltas of four and
five characters), the accumulated text has nine characters, so the
terminal line the code emits carries `completionTokens` 9; the claimed
list of output lines, whose terminal line says 10, is not the emitted
one. -/
theorem scenario_output_counterexample :
    outputsOf (AIService.stream_ai_response scenarioStore "how are you" 0
        "data" scenarioChunks false).1 ≠
      ["0:\"I\x27m \"\n", "0:\"fine.\"\n", finishLine 10] := by
  decide

/-- C4 (amended): the scenario run emits the two `0:` lines and a
terminal line with `completionTokens` 9 (the character count of the
accumulated text), and leaves the chat's store state at exactly
history, user turn, AI turn. -/
theorem scenario_output_amended :
    outputsOf (AIService.stream_ai_response scenarioStore "how are you" 0
        "data" scenarioChunks false).1 =
      ["0:\"I\x27m \"\n", "0:\"fine.\"\n", finishLine 9] ∧
    (sortByCreatedAt (chatMessages (AIService.stream_ai_response
        scenarioStore "how are you" 0 "data" scenarioChunks false).2 0)).map msgProj =
      [("hi", 0), ("how are you", 0), ("I\x27m fine.", 1)] := by
  constructor <;> rfl

/-- C5: when the provider stream raises after yielding its deltas, the
generator ends in the error state immediately after the last emitted
chunk — in particular no terminal event follows under the data framing —
and the store keeps the prior history plus the already-written user
message only: no AI message is persisted and the accumulated partial
text is lost. -/
theorem provider_failure_drops_partial (s : Store) (cid : Nat) (M : String)
    (protocol : String) (chunks : List Chunk)
    (hp : protocol = "text" ∨ protocol = "data") :
    (chatMessages (AIService.stream_ai_response s M cid protocol chunks true).2 cid).map msgProj =
      (chatMessages s cid).map msgProj ++ [(M, 0)] ∧
    (AIService.stream_ai_response s M cid protocol chunks true).1 =
      [Ev.readHistory (AIService.get_chat_history s cid), Ev.writeUser M,
       Ev.providerCall (AIService.get_chat_history s cid ++
         [{ role := "user", content := M }])] ++
      (chunks.filterMap chunkContent).map (fun d =>
        Ev.emitChunk (if protocol == "text" then d
                      else "0:" ++ jsonDumps d ++ "\n")) ++
      [Ev.streamError] := by
  rcases hp with rfl | rfl
  · constructor
    · simp [AIService.stream_ai_response, chatMessages_create_message_self,
            msgProj]
    · simp [AIService.stream_ai_response, textLoop_eq]
  · constructor
    · simp [AIService.stream_ai_response, chatMessages_create_message_self,
            msgProj]
    · simp [AIService.stream_ai_response, dataLoop_eq]

theorem provider_failure_drops_partial_witness :
    (chatMessages (AIService.stream_ai_response scenarioStore "how are you" 0
        "data" [{ choices := [{ delta_content := some "I\x27m " }] }] true).2 0).map msgProj =
      (chatMessages scenarioStore 0).map msgProj ++ [("how are you", 0)] ∧
    (AIService.stream_ai_response scenarioStore "how are you" 0 "data"
        [{ choices := [{ delta_content := some "I\x27m " }] }] true).1 =
      [Ev.readHistory (AIService.get_chat_history scenarioStore 0),
       Ev.writeUser "how are you",
       Ev.providerCall (AIService.get_chat_history scenarioStore 0 ++
         [{ role := "user", content := "how are you" }])] ++
      ((([{ choices := [{ delta_content := some "I\x27m " }] }] : List Chunk).filterMap chunkContent).map (fun d =>
        Ev.emitChunk (if ("data" : String) == "text" then d
                      else "0:" ++ jsonDumps d ++ "\n"))) ++
      [Ev.streamError] :=
  provider_failure_drops_partial scenarioStore 0 "how are you" "data"
    [{ choices := [{ delta_content := some "I\x27m " }] }] (Or.inr rfl)

/-- C1: a streaming turn run to completion leaves the chat's persisted
history as exactly the old history followed by the user message with
content M and one AI message whose content R is the concatenation, in
emission order, of the deltas emitted under the chosen framing; the
trace shows the history read first, the user write strictly before the
provider call, and the AI write strictly after every emitted chunk. -/
theorem stream_turn_persists_exact_history (s : Store) (cid : Nat)
    (M : String) (protocol : String) (chunks : List Chunk)
    (hwf : StoreWf s) :
    ∃ emits,
      (AIService.stream_ai_response s M cid protocol chunks false).1 =
        [Ev.readHistory (AIService.get_chat_history s cid), Ev.writeUser M,
         Ev.providerCall (AIService.get_chat_history s cid ++
           [{ role := "user", content := M }])] ++
        emits ++ [Ev.writeAI (concatAll (emittedDeltas protocol chunks))] ∧
      (∀ e ∈ emits, ∃ c, e = Ev.emitChunk c) ∧
      (sortByCreatedAt (chatMessages
          (AIService.stream_ai_response s M cid protocol chunks false).2 cid)).map msgProj =
        (sortByCreatedAt (chatMessages s cid)).map msgProj ++
          [(M, 0), (concatAll (emittedDeltas protocol chunks), 1)] := by
  have storePart : ∀ R : String,
      (sortByCreatedAt (chatMessages
        (ChatRepository.create_message
          (ChatRepository.create_message s cid M 0) cid R 1) cid)).map msgProj =
      (sortByCreatedAt (chatMessages s cid)).map msgProj ++ [(M, 0), (R, 1)] := by
    intro R
    have hwf1 := storeWf_create_message s cid M 0 hwf
    have hwf2 := storeWf_create_message _ cid R 1 hwf1
    rw [sortByCreatedAt_eq_self _ (chatMessages_sorted _ cid hwf2),
        sortByCreatedAt_eq_self _ (chatMessages_sorted _ cid hwf),
        chatMessages_create_message_self, chatMessages_create_message_self]
    simp [msgProj]
  cases h1 : (protocol == "text") with
  | true =>
    refine ⟨(chunks.filterMap chunkContent).map Ev.emitChunk, ?_, ?_, ?_⟩
    · simp [AIService.stream_ai_response, h1, textLoop_eq, emittedDeltas,
            String.empty_append]
    · intro e he
      rcases List.mem_map.mp he with ⟨d, _, rfl⟩
      exact ⟨d, rfl⟩
    · have hgoal := storePart (concatAll (chunks.filterMap chunkContent))
      simp only [AIService.stream_ai_response, h1, textLoop_eq,
                 String.empty_append, emittedDeltas, Bool.true_or, if_true] at hgoal ⊢
      simpa using hgoal
  | false =>
    cases h2 : (protocol == "data") with
    | true =>
      refine ⟨(chunks.filterMap chunkContent).map
                (fun d => Ev.emitChunk ("0:" ++ jsonDumps d ++ "\n")) ++
              [Ev.emitChunk (finishLine
                (concatAll (chunks.filterMap chunkContent)).length)],
              ?_, ?_, ?_⟩
      · simp [AIService.stream_ai_response, h1, h2, dataLoop_eq,
              emittedDeltas, String.empty_append]
      · intro e he
        rcases List.mem_append.mp he with he | he
        · rcases List.mem_map.mp he with ⟨d, _, rfl⟩
          exact ⟨"0:" ++ jsonDumps d ++ "\n", rfl⟩
        · rcases List.mem_singleton.mp he with rfl
          exact ⟨finishLine (concatAll (chunks.filterMap chunkContent)).length, rfl⟩
      · have hgoal := storePart (concatAll (chunks.filterMap chunkContent))
        simp only [AIService.stream_ai_response, h1, h2, dataLoop_eq,
                   String.empty_append, emittedDeltas, Bool.or_true,
                   Bool.false_eq_true, if_false, if_true] at hgoal ⊢
        simpa using hgoal
    | false =>
      refine ⟨[], ?_, ?_, ?_⟩
      · simp [AIService.stream_ai_response, h1, h2, emittedDeltas, concatAll]
      · intro e he
        simp at he
      · have hgoal := storePart ""
        simp only [AIService.stream_ai_response, h1, h2, emittedDeltas,
                   Bool.or_self, Bool.false_eq_true, if_false, concatAll] at hgoal ⊢
        simpa using hgoal

theorem stream_turn_persists_exact_history_witness :
    ∃ emits,
      (AIService.stream_ai_response scenarioStore "how are you" 0 "data"
          scenarioChunks false).1 =
        [Ev.readHistory (AIService.get_chat_history scenarioStore 0),
         Ev.writeUser "how are you",
         Ev.providerCall (AIService.get_chat_history scenarioStore 0 ++
           [{ role := "user", content := "how are you" }])] ++
        emits ++ [Ev.writeAI (concatAll (emittedDeltas "data" scenarioChunks))] ∧
      (∀ e ∈ emits, ∃ c, e = Ev.emitChunk c) ∧
      (sortByCreatedAt (chatMessages
          (AIService.stream_ai_response scenarioStore "how are you" 0 "data"
            scenarioChunks false).2 0)).map msgProj =
        (sortByCreatedAt (chatMessages scenarioStore 0)).map msgProj ++
          [("how are you", 0), (concatAll (emittedDeltas "data" scenarioChunks), 1)] :=
  stream_turn_persists_exact_history scenarioStore 0 "how are you" "data"
    scenarioChunks ⟨by decide, by decide⟩
